import Mathlib

/-!
# Verification of the runstats core (GPX parser and statistics engine)

Shallow embedding of `src/lib.rs`, `src/stats.rs` and `src/gpx_parser.rs`.

Modelling conventions:
* Rust `f64` coordinates/elevations parsed from text are modelled as exact
  rationals (`ℚ`); the transcendental geometry of `stats.rs` is modelled over
  the real numbers (`ℝ`).
* `chrono::DateTime<Utc>` is modelled as an integer count of milliseconds
  since the Unix epoch; `std::time::Duration` as a natural number of
  milliseconds.  `Utc::now()` is modelled as an explicit parameter `now`.
* A Rust panic (`unwrap` of a failed conversion, arithmetic underflow,
  out-of-bounds indexing) is modelled by `Option`/`Except` propagating `none`
  resp. an error.
-/

namespace Runstats

/-- `TrackPoint` from `src/lib.rs`: latitude/longitude/elevation (`f64`,
modelled as `ℚ`), time (`DateTime<Utc>`, modelled as milliseconds), heart
rate and cadence (`u8`, modelled as `ℕ`, parser keeps them `≤ 255`). -/
structure TrackPoint where
  latitude : ℚ
  longitude : ℚ
  elevation : ℚ
  time : ℤ
  heart_rate : ℕ
  cadence : ℕ
  deriving DecidableEq

/-- `TrackPoint::new` from `src/lib.rs`: zero fields, `time: Utc::now()`;
the wall-clock value is the explicit parameter `now`. -/
def TrackPoint.new (now : ℤ) : TrackPoint :=
  { latitude := 0, longitude := 0, elevation := 0, time := now
    heart_rate := 0, cadence := 0 }

/-- `TrackSegment` from `src/lib.rs`. -/
structure TrackSegment where
  points : List TrackPoint
  deriving DecidableEq

/-- `Track` from `src/lib.rs`: a name, an optional start time, and a route
made of segments (this is the shape consumed by `src/stats.rs`). -/
structure Track where
  name : String
  start_time : Option ℤ
  route : List TrackSegment
  deriving DecidableEq

/-- `Split` from the statistics engine (`pub struct` used by
`src/stats.rs::calc_track_splits`): distance (`u16`), pace in seconds
(`u64`), elevation delta (`i32`). -/
structure Split where
  distance : ℕ
  pace : ℕ
  elevation_delta : ℤ
  deriving DecidableEq

/-- `ElevationStats` as constructed by `src/stats.rs` line 272
(`ElevationStats {}`): the struct literal carries no fields.  The struct
declaration itself does not appear under `src/`; the stub constructor in
`calc_track_elevation_stats` pins it to a fieldless value. -/
structure ElevationStats : Type where
  deriving DecidableEq

/-! ## Geometry (`src/stats.rs`), over `ℝ` -/

/-- `EARTH_RADIUS` from `src/stats.rs` (meters, WGS84 mean radius). -/
noncomputable def EARTH_RADIUS : ℝ := 6371008.8

/-- `deg2rad` from `src/stats.rs`. -/
noncomputable def deg2rad (angle : ℝ) : ℝ := angle * Real.pi / 180

/-- `distance` from `src/stats.rs`: great-circle distance, Vincenty formula. -/
noncomputable def distance (lat1 long1 lat2 long2 : ℝ) : ℝ :=
  let sin_lat1 := Real.sin (deg2rad lat1)
  let cos_lat1 := Real.cos (deg2rad lat1)
  let sin_lat2 := Real.sin (deg2rad lat2)
  let cos_lat2 := Real.cos (deg2rad lat2)
  let sin_delta_long := Real.sin (deg2rad (long2 - long1))
  let cos_delta_long := Real.cos (deg2rad (long2 - long1))
  let a := (cos_lat2 * sin_delta_long) ^ 2
    + (cos_lat1 * sin_lat2 - sin_lat1 * cos_lat2 * cos_delta_long) ^ 2
  let a := Real.sqrt a
  let b := sin_lat1 * sin_lat2 + cos_lat1 * cos_lat2 * cos_delta_long
  let angle := Real.arctan (a / b)
  angle * EARTH_RADIUS

/-- `distance_with_elevation` from `src/stats.rs`. -/
noncomputable def distance_with_elevation (point1 point2 : TrackPoint) : ℝ :=
  let cathet1 := distance point1.latitude point1.longitude
      point2.latitude point2.longitude
  let cathet2 := |(point2.elevation : ℝ) - (point1.elevation : ℝ)|
  Real.sqrt (cathet1 * cathet1 + cathet2 * cathet2)

/-- `calc_track_distance_segment` from `src/stats.rs`: the index loop adds
`distance_with_elevation` over each consecutive pair and stops when
`point_idx + 1` reaches the length. -/
noncomputable def calc_track_distance_segment : List TrackPoint → ℝ
  | point :: next_point :: rest =>
      distance_with_elevation point next_point
        + calc_track_distance_segment (next_point :: rest)
  | _ => 0

/-- `calc_track_distance` from `src/stats.rs`: per-segment sums accumulated
over the route, result cast `as u64` when positive, else `0`. -/
noncomputable def calc_track_distance (track : Track) : ℕ :=
  let d := track.route.foldl
    (fun acc segment => acc + calc_track_distance_segment segment.points) 0
  if 0 < d then ⌊d⌋₊ else 0

/-! ## Duration (`src/stats.rs`) -/

/-- `duration_between_points` from `src/stats.rs`:
`point2.time.signed_duration_since(point1.time).to_std().unwrap()`.
`to_std` fails (and `unwrap` panics, modelled `none`) exactly when the
difference is negative.  Result in milliseconds. -/
def duration_between_points (point1 point2 : TrackPoint) : Option ℕ :=
  let d := point2.time - point1.time
  if d < 0 then none else some d.toNat

/-- `calc_track_duration_segment` from `src/stats.rs`: zero for an empty or
one-point segment, otherwise the sum over consecutive pairs. -/
def calc_track_duration_segment : List TrackPoint → Option ℕ
  | point :: next_point :: rest => do
      let d ← duration_between_points point next_point
      let r ← calc_track_duration_segment (next_point :: rest)
      pure (d + r)
  | _ => some 0

/-- `calc_track_duration` from `src/stats.rs`. -/
def calc_track_duration (track : Track) : Option ℕ :=
  track.route.foldlM
    (fun acc segment => do
      pure (acc + (← calc_track_duration_segment segment.points)))
    0

/-! ## Average heart rate (`src/stats.rs`) -/

/-- The body of the per-segment loop of `calc_track_average_heart_rate`
(`src/stats.rs` lines 140-175), as a recursion over the point list.
State: the `single_point_segment` flag and the running `(sum,
total_duration_sec)` accumulators.  `duration_sec` is
`duration_between_points(..).as_secs()`, i.e. whole seconds. -/
def hr_segment_loop : List TrackPoint → Bool → ℕ × ℕ → Option (ℕ × ℕ)
  | [], _, acc => some acc
  | [point], single_point_segment, (sum, total) =>
      if point.heart_rate = 0 then some (sum, total)
      else if single_point_segment then
        some (sum + point.heart_rate, total + 1)
      else some (sum, total)
  | point :: next_point :: rest, single_point_segment, (sum, total) =>
      if point.heart_rate = 0 then
        hr_segment_loop (next_point :: rest) single_point_segment (sum, total)
      else
        let (sum, total) :=
          if next_point.heart_rate = 0 then (sum + point.heart_rate, total + 1)
          else (sum, total)
        match duration_between_points point next_point with
        | none => none
        | some ms =>
          let duration_sec := ms / 1000
          if duration_sec = 0 then
            hr_segment_loop (next_point :: rest) false (sum, total)
          else
            hr_segment_loop (next_point :: rest) false
              (sum + (point.heart_rate + next_point.heart_rate) * duration_sec / 2,
                total + duration_sec)

/-- Accumulation of `hr_segment_loop` over the route. -/
def hr_segments : List TrackSegment → ℕ × ℕ → Option (ℕ × ℕ)
  | [], acc => some acc
  | segment :: rest, acc => do
      hr_segments rest (← hr_segment_loop segment.points true acc)

/-- `calc_track_average_heart_rate` from `src/stats.rs`; the final
`(sum / total_duration_sec) as u8` cast is `% 256`. -/
def calc_track_average_heart_rate (track : Track) : Option ℕ := do
  let (sum, total_duration_sec) ← hr_segments track.route (0, 0)
  pure (if total_duration_sec ≠ 0 then sum / total_duration_sec % 256 else 0)

/-! ## Splits (`src/stats.rs`) -/

/-- Rust `f64 as i32` (truncation toward zero), over `ℝ`. -/
noncomputable def f64_as_int (x : ℝ) : ℤ := if 0 ≤ x then ⌊x⌋ else ⌈x⌉

/-- Mutable state of the `calc_track_splits` loop. -/
structure SplitsState where
  splits : List Split
  dist_accumulator : ℝ
  current_km_duration : ℕ
  start_elevation : ℝ
  latest_elevation : ℝ

/-- One iteration of the inner loop of `calc_track_splits`
(`src/stats.rs` lines 198-246), for the pair `(point, next)`. -/
noncomputable def splits_step (st : SplitsState) (point next : TrackPoint) :
    Option SplitsState := do
  let dist := distance_with_elevation point next
  let duration := (← duration_between_points point next) / 1000
  let st := if st.dist_accumulator = 0 then
    { st with start_elevation := (point.elevation : ℝ) } else st
  let st := { st with latest_elevation := (next.elevation : ℝ) }
  let pending := st.dist_accumulator + dist
  if pending < 1000 then
    some { st with dist_accumulator := pending,
                   current_km_duration := st.current_km_duration + duration }
  else if pending = 1000 then
    let delta := (next.elevation : ℝ) - st.start_elevation
    some { st with
      splits := st.splits ++
        [{ distance := 1000, pace := st.current_km_duration + duration,
           elevation_delta := f64_as_int delta }]
      current_km_duration := 0
      dist_accumulator := 0
      start_elevation := (next.elevation : ℝ) }
  else
    let extra := (pending - 1000) / dist
    let extra_duration := ⌊(duration : ℝ) * extra⌋₊
    let current_km_duration := st.current_km_duration + duration - extra_duration
    let current_delta := (next.elevation : ℝ) - (point.elevation : ℝ)
    let extra_elevation := current_delta * extra
    let current_end_elevation := (point.elevation : ℝ) + extra_elevation
    let split_delta := current_end_elevation - st.start_elevation
    some { st with
      splits := st.splits ++
        [{ distance := 1000, pace := current_km_duration,
           elevation_delta := f64_as_int split_delta }]
      current_km_duration := extra_duration
      dist_accumulator := extra * dist
      start_elevation := current_end_elevation }

/-- The inner loop of `calc_track_splits` over the consecutive pairs of a
segment's point list. -/
noncomputable def splits_pairs : SplitsState → List TrackPoint → Option SplitsState
  | st, point :: next :: rest => do
      splits_pairs (← splits_step st point next) (next :: rest)
  | st, _ => some st

/-- Per-segment part of `calc_track_splits`.  The source iterates
`for i in 0..segment.points.len() - 1` with `len(): usize`: on an empty
segment `0 - 1` underflows, which panics (debug) or produces an
out-of-bounds index (release) — modelled as `none`. -/
noncomputable def splits_segment (st : SplitsState) :
    List TrackPoint → Option SplitsState
  | [] => none
  | points => splits_pairs st points

/-- Accumulation of `splits_segment` over the route. -/
noncomputable def splits_segments : SplitsState → List TrackSegment →
    Option SplitsState
  | st, [] => some st
  | st, segment :: rest => do
      splits_segments (← splits_segment st segment.points) rest

/-- `calc_track_splits` from `src/stats.rs`, including the final
partial-split block (threshold 100 m). -/
noncomputable def calc_track_splits (track : Track) : Option (List Split) := do
  let st ← splits_segments
    { splits := [], dist_accumulator := 0, current_km_duration := 0,
      start_elevation := 0, latest_elevation := 0 } track.route
  if 100 ≤ st.dist_accumulator ∧ 0 < st.current_km_duration then
    let coeff := st.dist_accumulator / 1000
    let estimated_duration := ⌊(st.current_km_duration : ℝ) / coeff⌋₊
    let split_delta := st.latest_elevation - st.start_elevation
    pure (st.splits ++
      [{ distance := ⌊st.dist_accumulator⌋₊, pace := estimated_duration,
         elevation_delta := f64_as_int split_delta }])
  else
    pure st.splits

/-! ## Elevation stats (`src/stats.rs`) -/

/-- `calc_track_elevation_stats` from `src/stats.rs` lines 263-273: the
source declares `max_elevation`/`min_elevation`/`gain` locals, loops over
the route with an **empty body**, and returns the empty struct literal
`ElevationStats {}`; the locals are dead.  The function therefore ignores
its input entirely. -/
def calc_track_elevation_stats (_track : Track) : ElevationStats :=
  ElevationStats.mk

/-- Modelled from the spec: the intended `ElevationStats` record of §3 of
the spec (maximum elevation, minimum elevation, cumulative gain; "no data"
for max/min of a pointless track is `none`).  The field-bearing struct
declaration is missing from `src/` (only the stub constructor in
`src/stats.rs` and callers outside the core reference it). -/
structure ElevationStatsSpec where
  max_elevation : Option ℚ
  min_elevation : Option ℚ
  gain : ℚ
  deriving DecidableEq

/-- Greatest element of a list of rationals, `none` when empty. -/
def rat_list_max : List ℚ → Option ℚ
  | [] => none
  | e :: es => some (es.foldl (fun a b => if a ≤ b then b else a) e)

/-- Least element of a list of rationals, `none` when empty. -/
def rat_list_min : List ℚ → Option ℚ
  | [] => none
  | e :: es => some (es.foldl (fun a b => if b ≤ a then b else a) e)

/-- Modelled from the spec (§4.2 Elevation stats): maximum and minimum
elevation over all points of all segments, and cumulative gain as the sum
of `max 0 (e_{i+1} - e_i)` over consecutive pairs within each segment. -/
def calc_track_elevation_stats_spec (track : Track) : ElevationStatsSpec :=
  let points := track.route.flatMap (fun segment => segment.points)
  let elevations := points.map (fun p => p.elevation)
  { max_elevation := rat_list_max elevations
    min_elevation := rat_list_min elevations
    gain := (track.route.map (fun segment =>
        ((segment.points.zip segment.points.tail).map
          (fun pq => if pq.1.elevation ≤ pq.2.elevation then
            pq.2.elevation - pq.1.elevation else 0)).sum)).sum }

/-! ## Specification-side formulations of the statistics claims -/

/-- Spec formulation of per-segment distance: the sum of
`distance_with_elevation` over the consecutive pairs of the segment. -/
noncomputable def spec_segment_distance (points : List TrackPoint) : ℝ :=
  ((points.zip points.tail).map
    (fun pq => distance_with_elevation pq.1 pq.2)).sum

/-- Spec formulation of per-segment duration (milliseconds): the sum of
consecutive-pair time differences. -/
def spec_segment_duration (points : List TrackPoint) : ℕ :=
  ((points.zip points.tail).map
    (fun pq => (pq.2.time - pq.1.time).toNat)).sum

/-- Whole seconds elapsed between two points (used by the heart-rate and
splits arithmetic through `Duration::as_secs`). -/
def seconds_between (point1 point2 : TrackPoint) : ℕ :=
  (point2.time - point1.time).toNat / 1000

/-- Consecutive point times are non-decreasing. -/
def pairwise_le : List TrackPoint → Bool
  | p :: q :: rest => decide (p.time ≤ q.time) && pairwise_le (q :: rest)
  | _ => true

/-- Points of a segment are in non-decreasing time order. -/
def segment_sorted (points : List TrackPoint) : Prop :=
  pairwise_le points = true

instance (points : List TrackPoint) : Decidable (segment_sorted points) :=
  inferInstanceAs (Decidable (_ = true))

/-- Every segment of the track is in non-decreasing time order. -/
def track_sorted (track : Track) : Prop :=
  track.route.all (fun segment => pairwise_le segment.points) = true

instance (track : Track) : Decidable (track_sorted track) :=
  inferInstanceAs (Decidable (_ = true))

/-- Contribution of one consecutive pair to the heart-rate accumulators
`(weighted sum, weight in seconds)`, as claim C4 words it: a pair whose
first point has non-zero heart rate and whose successor has heart rate `0`
contributes that single sample for exactly 1 second; a pair with both
heart rates non-zero contributes the trapezoid
`(hr_i + hr_{i+1}) * seconds / 2` with weight `seconds`. -/
def claim_hr_pair (p q : TrackPoint) : ℕ × ℕ :=
  if p.heart_rate ≠ 0 then
    if q.heart_rate = 0 then (p.heart_rate, 1)
    else
      let d := seconds_between p q
      ((p.heart_rate + q.heart_rate) * d / 2, d)
  else (0, 0)

/-- Heart-rate accumulators of one segment as claim C4 words them: the
pair contributions plus, when the last point has non-zero heart rate, its
unconditional 1-second terminal sample. -/
def claim_hr_segment (points : List TrackPoint) : ℕ × ℕ :=
  (((points.zip points.tail).map (fun pq => claim_hr_pair pq.1 pq.2)).sum) +
  (match points.getLast? with
   | some p => if p.heart_rate ≠ 0 then (p.heart_rate, 1) else (0, 0)
   | none => (0, 0))

/-- Average heart rate as claim C4 words it (total weighted sum over total
weight, floored, `0` on zero weight). -/
def claim_average_heart_rate (track : Track) : ℕ :=
  let acc := (track.route.map (fun s => claim_hr_segment s.points)).sum
  if acc.2 ≠ 0 then acc.1 / acc.2 else 0

/-- Contribution of one consecutive pair to the heart-rate accumulators as
the code actually computes it: when the first point has non-zero heart rate,
a successor with heart rate `0` yields the 1-second single sample **and**,
whenever the whole-second gap `d` is non-zero, the pair additionally
contributes the trapezoid `(hr_i + hr_{i+1}) * d / 2` with weight `d`
(with `hr_{i+1} = 0` in the single-sample case). -/
def amended_hr_pair (p q : TrackPoint) : ℕ × ℕ :=
  if p.heart_rate ≠ 0 then
    (if q.heart_rate = 0 then ((p.heart_rate : ℕ), 1) else (0, 0)) +
    (let d := seconds_between p q
     if d ≠ 0 then ((p.heart_rate + q.heart_rate) * d / 2, d) else (0, 0))
  else (0, 0)

/-- Sum of the `amended_hr_pair` contributions of a segment. -/
def amended_hr_pairs (points : List TrackPoint) : ℕ × ℕ :=
  ((points.zip points.tail).map (fun pq => amended_hr_pair pq.1 pq.2)).sum

/-- Every point except possibly the last has heart rate `0`. -/
def all_but_last_hr_zero : List TrackPoint → Bool
  | p :: q :: rest => (p.heart_rate == 0) && all_but_last_hr_zero (q :: rest)
  | _ => true

/-- Terminal contribution of a segment, relative to the incoming
`single_point_segment` flag value: the last point contributes a 1-second
sample only when its heart rate is non-zero, the flag is still set, and
every earlier point of the segment has heart rate `0`. -/
def amended_hr_terminal (points : List TrackPoint) (single : Bool) : ℕ × ℕ :=
  match points.getLast? with
  | some p =>
      if p.heart_rate ≠ 0 ∧ single = true ∧
          all_but_last_hr_zero points = true then (p.heart_rate, 1)
      else (0, 0)
  | none => (0, 0)

/-- Heart-rate accumulators of one segment as the code computes them (the
flag starts `true` at each segment). -/
def amended_hr_segment (points : List TrackPoint) : ℕ × ℕ :=
  amended_hr_pairs points + amended_hr_terminal points true

/-- Average heart rate as the code computes it: accumulators summed across
segments, `sum / weight` reduced mod 256 (the wrapping `as u8` cast), `0`
on zero weight. -/
def amended_average_heart_rate (track : Track) : ℕ :=
  let acc := (track.route.map (fun s => amended_hr_segment s.points)).sum
  if acc.2 ≠ 0 then acc.1 / acc.2 % 256 else 0

/-! ## GPX parser (`src/gpx_parser.rs`)

The parser file operates on a `Track` whose `route` is a flat list of
points (`track.route.push(context.current_track_point)`,
`track.route.sort_by(..)`), unlike the segmented `Track` of `src/lib.rs`;
the embedding mirrors the parser file as written, with its own `Gpx.Track`.
-/

namespace Gpx

/-- `ParseError` from `src/lib.rs`. -/
inductive ParseError where
  | XmlError
  deriving DecidableEq

/-- `xml::name::OwnedName`, the parts the parser reads.  The source field
`namespace` is a reserved word in Lean and is embedded as `ns`; the unused
`prefix` field is omitted. -/
structure OwnedName where
  local_name : String
  ns : Option String
  deriving DecidableEq

/-- `xml::attribute::OwnedAttribute`. -/
structure OwnedAttribute where
  name : OwnedName
  value : String
  deriving DecidableEq

/-- `xml::reader::XmlEvent`, the constructors `read_gpx_from` matches on.
`StreamError` stands for the reader yielding `Err(e)`. -/
inductive XmlEvent where
  | StartDocument
  | EndDocument
  | StartElement (name : OwnedName) (attributes : List OwnedAttribute)
  | EndElement (name : OwnedName)
  | Characters (s : String)
  | Whitespace (s : String)
  | StreamError
  deriving DecidableEq

/-- `GpxXmlTag` from `src/gpx_parser.rs`. -/
inductive GpxXmlTag where
  | Gpx
  | Metadata
  | Track
  | Name
  | TrackSegment
  | TrackPoint
  | Elevation
  | Time
  | ExtHeartRate
  | ExtCadence
  deriving DecidableEq

/-- `ParserContext` from `src/gpx_parser.rs`. -/
structure ParserContext where
  in_gpx : Bool
  in_metadata : Bool
  in_track : Bool
  in_track_segment : Bool
  in_track_point : Bool
  current_tag : Option GpxXmlTag
  current_track_point : TrackPoint
  should_sort_track : Bool
  deriving DecidableEq

/-- `ParserContext::new`. -/
def ParserContext.new (now : ℤ) : ParserContext :=
  { in_gpx := false, in_metadata := false, in_track := false
    in_track_segment := false, in_track_point := false, current_tag := none
    current_track_point := TrackPoint.new now, should_sort_track := false }

/-- The `Track` value as `src/gpx_parser.rs` manipulates it: `route` is a
flat list of points. -/
structure Track where
  name : String
  start_time : Option ℤ
  route : List TrackPoint
  deriving DecidableEq

/-- `Track::new` as used by the parser file. -/
def Track.new : Track := { name := "", start_time := none, route := [] }

def TOPOGRAFIX_GPX_SCHEMA : String := "http://www.topografix.com/GPX/1/1"

def GARMIN_TRACK_POINT_EXT_SCHEMA : String :=
  "http://www.garmin.com/xmlschemas/TrackPointExtension/v1"

def TOPOGRAFIX_GPX_MAPPINGS : List (String × GpxXmlTag) :=
  [("gpx", .Gpx), ("metadata", .Metadata), ("trk", .Track), ("name", .Name),
   ("trkseg", .TrackSegment), ("trkpt", .TrackPoint), ("ele", .Elevation),
   ("time", .Time)]

def GARMIN_TRACK_POINT_EXT_MAPPINGS : List (String × GpxXmlTag) :=
  [("hr", .ExtHeartRate), ("cad", .ExtCadence)]

/-- `find_tag_in_mapping` from `src/gpx_parser.rs`. -/
def find_tag_in_mapping (tag : String) (mapping : List (String × GpxXmlTag)) :
    Option GpxXmlTag :=
  match mapping.find? (fun mapped => mapped.1 == tag) with
  | some (_, value) => some value
  | none => none

/-- `parse_gpx_xml_tag` from `src/gpx_parser.rs`. -/
def parse_gpx_xml_tag (name : OwnedName) : Option GpxXmlTag :=
  match name.ns with
  | none => none
  | some ns =>
    if ns == TOPOGRAFIX_GPX_SCHEMA then
      find_tag_in_mapping name.local_name TOPOGRAFIX_GPX_MAPPINGS
    else if ns == GARMIN_TRACK_POINT_EXT_SCHEMA then
      find_tag_in_mapping name.local_name GARMIN_TRACK_POINT_EXT_MAPPINGS
    else none

/-! ### Numeric and timestamp text decoding (models of external parsers) -/

/-- Value of a digit list (most significant first); assumes digits. -/
def nat_of_digits (cs : List Char) : ℕ :=
  cs.foldl (fun acc c => acc * 10 + (c.toNat - 48)) 0

/-- Models Rust `str::parse::<f64>` restricted to plain decimal literals
(optional sign, integer digits, optional fraction), exactly, as a rational.
Exponent, infinity and NaN spellings are not modelled. -/
def parse_f64 (s : String) : Option ℚ :=
  let signed := match s.data with
    | '-' :: rest => ((-1 : ℚ), rest)
    | '+' :: rest => ((1 : ℚ), rest)
    | cs => ((1 : ℚ), cs)
  let sign := signed.1
  let cs := signed.2
  let int_part := cs.takeWhile Char.isDigit
  let rest := cs.drop int_part.length
  match rest with
  | [] =>
      if int_part.isEmpty then none
      else some (sign * nat_of_digits int_part)
  | '.' :: frac_part =>
      if frac_part.all Char.isDigit ∧ ¬(int_part.isEmpty ∧ frac_part.isEmpty)
      then
        some (sign * ((nat_of_digits int_part : ℚ) +
          (nat_of_digits frac_part : ℚ) / (10 : ℚ) ^ frac_part.length))
      else none
  | _ => none

/-- Models Rust `str::parse::<u8>`: optional `+`, decimal digits, value at
most 255. -/
def parse_u8 (s : String) : Option ℕ :=
  let cs := match s.data with
    | '+' :: rest => rest
    | cs => cs
  if cs.isEmpty ∨ ¬cs.all Char.isDigit then none
  else
    let v := nat_of_digits cs
    if v ≤ 255 then some v else none

/-- Day count since 1970-01-01 of a civil date (Gregorian), the standard
days-from-civil computation. -/
def days_from_civil (y m d : ℤ) : ℤ :=
  let y := y - (if m ≤ 2 then 1 else 0)
  let era := y / 400
  let yoe := y - era * 400
  let doy := (153 * (m + (if 2 < m then -3 else 9)) + 2) / 5 + d - 1
  let doe := yoe * 365 + yoe / 4 - yoe / 100 + doy
  era * 146097 + doe - 719468

/-- Models `chrono::DateTime::parse_from_rfc3339` (composed with the
conversion to `DateTime<Utc>`) restricted to the `YYYY-MM-DDThh:mm:ssZ`
shape, returning milliseconds since the Unix epoch; any other text is a
parse failure. -/
def parse_from_rfc3339 (s : String) : Option ℤ :=
  match s.data with
  | [y1, y2, y3, y4, '-', m1, m2, '-', d1, d2, 'T',
     h1, h2, ':', mi1, mi2, ':', s1, s2, 'Z'] =>
      if [y1, y2, y3, y4, m1, m2, d1, d2, h1, h2, mi1, mi2, s1, s2].all
          Char.isDigit then
        let y := (nat_of_digits [y1, y2, y3, y4] : ℤ)
        let mo := (nat_of_digits [m1, m2] : ℤ)
        let da := (nat_of_digits [d1, d2] : ℤ)
        let h := (nat_of_digits [h1, h2] : ℤ)
        let mi := (nat_of_digits [mi1, mi2] : ℤ)
        let ss := (nat_of_digits [s1, s2] : ℤ)
        if 1 ≤ mo ∧ mo ≤ 12 ∧ 1 ≤ da ∧ da ≤ 31 ∧ h < 24 ∧ mi < 60 ∧ ss < 60
        then
          some ((days_from_civil y mo da * 86400 + h * 3600 + mi * 60 + ss)
            * 1000)
        else none
      else none
  | _ => none

/-! ### Event handlers -/

/-- The attribute loop of the `TrackPoint` arm of `parse_start_xml_element`
(`src/gpx_parser.rs` lines 153-167): walks the attributes, parsing `lat`
and `lon` values into the in-progress point and recording which were
found; a value that fails to parse is an immediate error. -/
def parse_trkpt_attributes :
    List OwnedAttribute → TrackPoint → Bool → Bool →
    Except ParseError (TrackPoint × Bool × Bool)
  | [], point, latitude_found, longitude_found =>
      .ok (point, latitude_found, longitude_found)
  | attr :: rest, point, latitude_found, longitude_found =>
      if attr.name.local_name == "lat" then
        match parse_f64 attr.value with
        | some parsed =>
            parse_trkpt_attributes rest { point with latitude := parsed }
              true longitude_found
        | none => .error .XmlError
      else if attr.name.local_name == "lon" then
        match parse_f64 attr.value with
        | some parsed =>
            parse_trkpt_attributes rest { point with longitude := parsed }
              latitude_found true
        | none => .error .XmlError
      else
        parse_trkpt_attributes rest point latitude_found longitude_found

/-- `parse_start_xml_element` from `src/gpx_parser.rs`. -/
def parse_start_xml_element (now : ℤ) (tag : GpxXmlTag)
    (attributes : List OwnedAttribute) (context : ParserContext) :
    Except ParseError ParserContext :=
  let context := { context with current_tag := some tag }
  match tag with
  | .Gpx => .ok { context with in_gpx := true }
  | .Metadata =>
      if !context.in_gpx then .error .XmlError
      else .ok { context with in_metadata := true }
  | .Time =>
      if !context.in_gpx then .error .XmlError
      else .ok context
  | .Track => .ok { context with in_track := true }
  | .Name =>
      if !context.in_gpx || !context.in_track then .error .XmlError
      else .ok context
  | .TrackSegment => .ok { context with in_track_segment := true }
  | .TrackPoint =>
      if !context.in_gpx || !context.in_track || !context.in_track_segment
          || attributes.length < 2 then .error .XmlError
      else
        let context := { context with
          in_track_point := true
          current_track_point := TrackPoint.new now }
        match parse_trkpt_attributes attributes context.current_track_point
            false false with
        | .error err => .error err
        | .ok (point, latitude_found, longitude_found) =>
            if !latitude_found || !longitude_found then .error .XmlError
            else .ok { context with current_track_point := point }
  | .Elevation =>
      if !context.in_gpx || !context.in_track || !context.in_track_segment
          || !context.in_track_point then .error .XmlError
      else .ok context
  | .ExtHeartRate =>
      if !context.in_gpx || !context.in_track || !context.in_track_segment
          || !context.in_track_point then .error .XmlError
      else .ok context
  | .ExtCadence =>
      if !context.in_gpx || !context.in_track || !context.in_track_segment
          || !context.in_track_point then .error .XmlError
      else .ok context

/-- `parse_xml_characters` from `src/gpx_parser.rs`. -/
def parse_xml_characters (characters : String) (track : Track)
    (context : ParserContext) : Except ParseError (Track × ParserContext) :=
  match context.current_tag with
  | none => .ok (track, context)
  | some tag =>
    match tag with
    | .Time =>
        match parse_from_rfc3339 characters with
        | none => .error .XmlError
        | some start_time =>
            if context.in_metadata then
              .ok ({ track with start_time := some start_time }, context)
            else if context.in_track_point then
              let context := { context with current_track_point :=
                { context.current_track_point with time := start_time } }
              let context :=
                if 0 < track.route.length && !context.should_sort_track then
                  match track.route.getLast? with
                  | some latest_point =>
                      if context.current_track_point.time < latest_point.time
                      then { context with should_sort_track := true }
                      else context
                  | none => context
                else context
              .ok (track, context)
            else .ok (track, context)
    | .Name => .ok ({ track with name := characters }, context)
    | .Elevation =>
        match parse_f64 characters with
        | some parsed =>
            .ok (track, { context with current_track_point :=
              { context.current_track_point with elevation := parsed } })
        | none => .error .XmlError
    | .ExtHeartRate =>
        match parse_u8 characters with
        | some parsed =>
            .ok (track, { context with current_track_point :=
              { context.current_track_point with heart_rate := parsed } })
        | none => .error .XmlError
    | .ExtCadence =>
        match parse_u8 characters with
        | some parsed =>
            .ok (track, { context with current_track_point :=
              { context.current_track_point with cadence := parsed } })
        | none => .error .XmlError
    | _ => .ok (track, context)

/-- `parse_end_xml_element` from `src/gpx_parser.rs`. -/
def parse_end_xml_element (tag : GpxXmlTag) (track : Track)
    (context : ParserContext) : Track × ParserContext :=
  let context := { context with current_tag := none }
  match tag with
  | .Gpx => (track, { context with in_gpx := false })
  | .Metadata => (track, { context with in_metadata := false })
  | .Track => (track, { context with in_track := false })
  | .TrackSegment => (track, { context with in_track_segment := false })
  | .TrackPoint =>
      ({ track with route := track.route ++ [context.current_track_point] },
        context)
  | _ => (track, context)

/-- Stable insertion preserving the relative order of equal keys; together
with `sort_points_by_time` this models Rust's stable
`Vec::sort_by(|a, b| a.time.cmp(&b.time))`. -/
def insert_by_time (x : TrackPoint) : List TrackPoint → List TrackPoint
  | [] => [x]
  | y :: ys =>
      if y.time ≤ x.time then y :: insert_by_time x ys else x :: y :: ys

/-- Stable ascending-by-time sort (insertion sort), modelling
`track.route.sort_by(|a, b| a.time.cmp(&b.time))`. -/
def sort_points_by_time : List TrackPoint → List TrackPoint
  | [] => []
  | x :: xs => insert_by_time x (sort_points_by_time xs)

/-- The event loop of `read_gpx_from` (`src/gpx_parser.rs` lines 277-318),
including the final conditional sort. -/
def read_gpx_loop (now : ℤ) :
    List XmlEvent → Track → ParserContext → Except ParseError Track
  | [], track, context =>
      if context.should_sort_track then
        .ok { track with route := sort_points_by_time track.route }
      else .ok track
  | event :: rest, track, context =>
      match event with
      | .StartElement name attributes =>
          match parse_gpx_xml_tag name with
          | none => read_gpx_loop now rest track context
          | some tag =>
              match parse_start_xml_element now tag attributes context with
              | .error err => .error err
              | .ok context => read_gpx_loop now rest track context
      | .EndElement name =>
          match parse_gpx_xml_tag name with
          | none => read_gpx_loop now rest track context
          | some tag =>
              let (track, context) := parse_end_xml_element tag track context
              read_gpx_loop now rest track context
      | .Characters characters =>
          match parse_xml_characters characters track context with
          | .error err => .error err
          | .ok (track, context) => read_gpx_loop now rest track context
      | .StreamError => .error .XmlError
      | _ => read_gpx_loop now rest track context

/-- `read_gpx_from` from `src/gpx_parser.rs`, over an event stream. -/
def read_gpx_from (now : ℤ) (events : List XmlEvent) :
    Except ParseError Track :=
  read_gpx_loop now events Track.new (ParserContext.new now)

/-- Constructor view of an `Except` value, for deciding equality. -/
def except_to_sum {ε α : Type} : Except ε α → ε ⊕ α
  | .error e => .inl e
  | .ok a => .inr a

instance {ε α : Type} [DecidableEq ε] [DecidableEq α] :
    DecidableEq (Except ε α) := fun a b =>
  decidable_of_iff (except_to_sum a = except_to_sum b)
    (by cases a <;> cases b <;> simp [except_to_sum])

end Gpx

/-! ## Concrete inputs used by the claims -/

/-- A point with a given time (in seconds) and heart rate. -/
def hr_point (seconds : ℤ) (heart_rate : ℕ) : TrackPoint :=
  { latitude := 0, longitude := 0, elevation := 0, time := seconds * 1000
    heart_rate := heart_rate, cadence := 0 }

/-- A point with a given time (in seconds) and no heart rate. -/
def time_point (seconds : ℤ) : TrackPoint := hr_point seconds 0

/-- A point with a given elevation at time 0. -/
def ele_point (elevation : ℚ) : TrackPoint :=
  { latitude := 0, longitude := 0, elevation := elevation, time := 0
    heart_rate := 0, cadence := 0 }

/-- A track containing exactly one empty segment. -/
def empty_segment_track : Track :=
  { name := "", start_time := none, route := [{ points := [] }] }

/-- Ten points spaced 3 seconds apart. -/
def ten_points : List TrackPoint :=
  (List.range 10).map (fun i => time_point (100 + 3 * (i : ℤ)))

/-- Ten points spaced 3 seconds apart (the duration test input). -/
def ten_point_track : Track :=
  { name := "", start_time := none, route := [{ points := ten_points }] }

/-- A single point. -/
def one_point_track : Track :=
  { name := "", start_time := none
    route := [{ points := [time_point 123456] }] }

/-- Two points with identical timestamps. -/
def two_same_point_track : Track :=
  { name := "", start_time := none
    route := [{ points := [time_point 123456, time_point 123456] }] }

/-- The heart-rate test input: `(t=100, hr=100), (t=110, hr=110)`. -/
def hr_test_track : Track :=
  { name := "", start_time := none
    route := [{ points := [hr_point 100 100, hr_point 110 110] }] }

/-- Heart-rate counterexample input: `(t=0, hr=100), (t=10, hr=0),
(t=20, hr=120)` in one segment. -/
def hr_gap_track : Track :=
  { name := "", start_time := none
    route := [{ points := [hr_point 0 100, hr_point 10 0, hr_point 20 120] }] }

/-- Two points at elevations 1 and 5 in one segment. -/
def elevation_track : Track :=
  { name := "", start_time := none
    route := [{ points := [ele_point 1, ele_point 5] }] }

namespace Gpx

/-- An element name in the topografix GPX namespace. -/
def gpx_name (local_name : String) : OwnedName :=
  { local_name := local_name, ns := some TOPOGRAFIX_GPX_SCHEMA }

/-- An element name in the Garmin track-point-extension namespace. -/
def garmin_name (local_name : String) : OwnedName :=
  { local_name := local_name, ns := some GARMIN_TRACK_POINT_EXT_SCHEMA }

/-- An (un-namespaced) attribute. -/
def attr (local_name value : String) : OwnedAttribute :=
  { name := { local_name := local_name, ns := none }, value := value }

/-- The event stream of one `<trkpt>` element of the parser tests in
`src/gpx_parser.rs` (coordinates, `<ele>`, `<time>`, and the Garmin
extension block with `<gpxtpx:hr>` and `<gpxtpx:cad>`). -/
def trkpt_events (lat lon ele time hr cad : String) : List XmlEvent :=
  [.StartElement (gpx_name "trkpt") [attr "lat" lat, attr "lon" lon],
   .StartElement (gpx_name "ele") [], .Characters ele,
   .EndElement (gpx_name "ele"),
   .StartElement (gpx_name "time") [], .Characters time,
   .EndElement (gpx_name "time"),
   .StartElement (gpx_name "extensions") [],
   .StartElement (garmin_name "TrackPointExtension") [],
   .StartElement (garmin_name "hr") [], .Characters hr,
   .EndElement (garmin_name "hr"),
   .StartElement (garmin_name "cad") [], .Characters cad,
   .EndElement (garmin_name "cad"),
   .EndElement (garmin_name "TrackPointExtension"),
   .EndElement (gpx_name "extensions"),
   .EndElement (gpx_name "trkpt")]

/-- The document frame of the parser tests: metadata time, track name, an
unrecognized `<type>` element, and one `<trkseg>` holding `points`. -/
def gpx_doc_events (points : List XmlEvent) : List XmlEvent :=
  [.StartDocument,
   .StartElement (gpx_name "gpx") [attr "creator" "StravaGPX"],
   .StartElement (gpx_name "metadata") [],
   .StartElement (gpx_name "time") [],
   .Characters "2020-04-22T16:01:58Z",
   .EndElement (gpx_name "time"),
   .EndElement (gpx_name "metadata"),
   .StartElement (gpx_name "trk") [],
   .StartElement (gpx_name "name") [], .Characters "Test run",
   .EndElement (gpx_name "name"),
   .StartElement (gpx_name "type") [], .Characters "9",
   .EndElement (gpx_name "type"),
   .StartElement (gpx_name "trkseg") []]
  ++ points ++
  [.EndElement (gpx_name "trkseg"),
   .EndElement (gpx_name "trk"),
   .EndElement (gpx_name "gpx"),
   .EndDocument]

/-- The chronologically earlier test point. -/
def point1_events : List XmlEvent :=
  trkpt_events "10.1025420" "15.1583540" "478.2" "2020-04-22T16:01:58Z"
    "95" "79"

/-- The chronologically later test point. -/
def point2_events : List XmlEvent :=
  trkpt_events "10.1025432" "15.1583542" "480.3" "2020-04-22T16:02:04Z"
    "98" "80"

/-- The forward-ordered two-point document of the parser tests. -/
def forward_doc : List XmlEvent :=
  gpx_doc_events (point1_events ++ point2_events)

/-- The reverse-chronological two-point document of the parser tests. -/
def reversed_doc : List XmlEvent :=
  gpx_doc_events (point2_events ++ point1_events)

/-- The route point times are in ascending order. -/
def route_ascending : List TrackPoint → Bool
  | p :: q :: rest => decide (p.time ≤ q.time) && route_ascending (q :: rest)
  | _ => true

/-- A document whose `<name>` element contains text, an element `<b>` from
an unrecognized namespace, and more text inside that element. -/
def name_with_markup_doc : List XmlEvent :=
  [.StartElement (gpx_name "gpx") [],
   .StartElement (gpx_name "trk") [],
   .StartElement (gpx_name "name") [],
   .Characters "Test ",
   .StartElement { local_name := "b", ns := some "http://example.com/html" } [],
   .Characters "run",
   .EndElement { local_name := "b", ns := some "http://example.com/html" },
   .EndElement (gpx_name "name"),
   .EndElement (gpx_name "trk"),
   .EndElement (gpx_name "gpx")]

/-- `name_with_markup_doc` with the unrecognized `<b>` element and its text
content removed. -/
def name_without_markup_doc : List XmlEvent :=
  [.StartElement (gpx_name "gpx") [],
   .StartElement (gpx_name "trk") [],
   .StartElement (gpx_name "name") [],
   .Characters "Test ",
   .EndElement (gpx_name "name"),
   .EndElement (gpx_name "trk"),
   .EndElement (gpx_name "gpx")]

/-- An unrecognized element name (foreign namespace). -/
def foreign_name : OwnedName :=
  { local_name := "b", ns := some "http://example.com/html" }

/-- A parser context sitting on a recognized `<time>` tag outside metadata
and outside any open point. -/
def time_context : ParserContext :=
  { ParserContext.new 0 with in_gpx := true, in_track := true,
                             current_tag := some .Time }

/-- The value of the last attribute named `key`, parsed as `f64`. -/
def last_attr_value (attributes : List OwnedAttribute) (key : String) :
    Option ℚ :=
  match (attributes.filter (fun a => a.name.local_name == key)).getLast? with
  | some a => parse_f64 a.value
  | none => none

/-- A parser context inside `gpx`, `trk` and `trkseg`. -/
def open_context : ParserContext :=
  { ParserContext.new 0 with in_gpx := true, in_track := true,
                             in_track_segment := true }

/-- A `trkpt` attribute list with only a `lat` attribute. -/
def trkpt_lat_only : List OwnedAttribute := [attr "lat" "10.5"]

/-- A well-formed `trkpt` attribute list. -/
def trkpt_ok_attrs : List OwnedAttribute :=
  [attr "lat" "10.5", attr "lon" "20.25"]

end Gpx

/-! ## Theorems -/

theorem distance_self (lat long : ℝ) : distance lat long lat long = 0 := by
  simp only [distance]
  rw [sub_self]
  have h0 : deg2rad 0 = 0 := by simp [deg2rad]
  rw [h0, Real.sin_zero, Real.cos_zero]
  have ha : (Real.cos (deg2rad lat) * 0) ^ 2 +
      (Real.cos (deg2rad lat) * Real.sin (deg2rad lat) -
        Real.sin (deg2rad lat) * Real.cos (deg2rad lat) * 1) ^ 2 = 0 := by
    ring
  rw [ha, Real.sqrt_zero, zero_div, Real.arctan_zero, zero_mul]

theorem deg2rad_sub_neg (x y : ℝ) : deg2rad (x - y) = -deg2rad (y - x) := by
  simp only [deg2rad]
  ring

theorem distance_comm (lat1 long1 lat2 long2 : ℝ) :
    distance lat1 long1 lat2 long2 = distance lat2 long2 lat1 long1 := by
  simp only [distance]
  rw [deg2rad_sub_neg long1 long2, Real.sin_neg, Real.cos_neg]
  have hA : (Real.cos (deg2rad lat2) * Real.sin (deg2rad (long2 - long1))) ^ 2
      + (Real.cos (deg2rad lat1) * Real.sin (deg2rad lat2) -
          Real.sin (deg2rad lat1) * Real.cos (deg2rad lat2) *
            Real.cos (deg2rad (long2 - long1))) ^ 2 =
      (Real.cos (deg2rad lat1) * -Real.sin (deg2rad (long2 - long1))) ^ 2
      + (Real.cos (deg2rad lat2) * Real.sin (deg2rad lat1) -
          Real.sin (deg2rad lat2) * Real.cos (deg2rad lat1) *
            Real.cos (deg2rad (long2 - long1))) ^ 2 := by
    have h1 := Real.sin_sq_add_cos_sq (deg2rad lat1)
    have h2 := Real.sin_sq_add_cos_sq (deg2rad lat2)
    have h3 := Real.sin_sq_add_cos_sq (deg2rad (long2 - long1))
    linear_combination
      (1 - Real.cos (deg2rad (long2 - long1)) ^ 2) *
          Real.cos (deg2rad lat1) ^ 2 * h2 -
        (1 - Real.cos (deg2rad (long2 - long1)) ^ 2) *
          Real.cos (deg2rad lat2) ^ 2 * h1 +
        (Real.cos (deg2rad lat2) ^ 2 - Real.cos (deg2rad lat1) ^ 2) * h3
  have hB : Real.sin (deg2rad lat1) * Real.sin (deg2rad lat2) +
      Real.cos (deg2rad lat1) * Real.cos (deg2rad lat2) *
        Real.cos (deg2rad (long2 - long1)) =
      Real.sin (deg2rad lat2) * Real.sin (deg2rad lat1) +
      Real.cos (deg2rad lat2) * Real.cos (deg2rad lat1) *
        Real.cos (deg2rad (long2 - long1)) := by
    ring
  rw [hA, hB]

/-- C9: the great-circle `distance` of `src/stats.rs` is symmetric in its
two points, and the distance from a point to itself is `0`. -/
theorem claim9_distance_symmetry :
    (∀ lat1 long1 lat2 long2 : ℝ,
      distance lat1 long1 lat2 long2 = distance lat2 long2 lat1 long1) ∧
    (∀ lat long : ℝ, distance lat long lat long = 0) :=
  ⟨distance_comm, distance_self⟩

/-- C1: on the track consisting of one empty segment, `calc_track_splits`
panics (the `0..len() - 1` loop bound underflows, modelled `none`), while
`calc_track_duration` and `calc_track_average_heart_rate` return their
defaults — the claimed totality of every statistics operation fails. -/
theorem claim1_splits_panic_on_empty_segment :
    calc_track_splits empty_segment_track = none ∧
    calc_track_duration empty_segment_track = some 0 ∧
    calc_track_average_heart_rate empty_segment_track = some 0 := by
  refine ⟨rfl, by decide, by decide⟩

/-- C2: `calc_track_elevation_stats` is an unimplemented stub — on the
two-point track with elevations 1 and 5 it returns the empty
`ElevationStats {}` value (the same value it returns for the empty track,
carrying no data), while the algorithm of the spec yields maximum 5,
minimum 1 and gain 4. -/
theorem claim2_elevation_stats_unimplemented :
    calc_track_elevation_stats elevation_track = ElevationStats.mk ∧
    calc_track_elevation_stats elevation_track =
      calc_track_elevation_stats { name := "", start_time := none, route := [] } ∧
    calc_track_elevation_stats_spec elevation_track =
      { max_elevation := some 5, min_elevation := some 1, gain := 4 } := by
  refine ⟨rfl, rfl, by with_unfolding_all decide⟩

/-- C3: parsing the reverse-chronological two-point document yields exactly
the `Track` produced by the forward-ordered document (whatever the
wall-clock value), and its route points are in ascending time order. -/
theorem claim3_reverse_order_roundtrip :
    ∀ now : ℤ,
      Gpx.read_gpx_from now Gpx.reversed_doc =
        Gpx.read_gpx_from now Gpx.forward_doc ∧
      (Gpx.read_gpx_from now Gpx.reversed_doc).toOption.map
        (fun t => Gpx.route_ascending t.route) = some true := by
  intro now
  exact ⟨by with_unfolding_all rfl, by with_unfolding_all rfl⟩

/-- C8 counterexample: removing an unrecognized-namespace element *and its
text content* from a document is observable — in `name_with_markup_doc`
the text inside the foreign `<b>` element is still processed under the
enclosing `<name>` tag and overwrites the track name, so the claim's
"no effect on the resulting Track" fails on this input. -/
theorem claim8_counterexample :
    Gpx.read_gpx_from 0 Gpx.name_with_markup_doc ≠
      Gpx.read_gpx_from 0 Gpx.name_without_markup_doc ∧
    (Gpx.read_gpx_from 0 Gpx.name_with_markup_doc).toOption.map
      (fun t => t.name) = some "run" ∧
    (Gpx.read_gpx_from 0 Gpx.name_without_markup_doc).toOption.map
      (fun t => t.name) = some "Test " :=
  ⟨by with_unfolding_all decide, by with_unfolding_all rfl,
   by with_unfolding_all rfl⟩

/-- C8 amended: the start and end events of an element whose namespace or
local name is unrecognized are themselves skipped without an error and
leave the track and the parser state exactly unchanged (character data
inside such an element is still processed under the most recently opened
recognized tag, and is not covered by this frame property). -/
theorem claim8_amended_unrecognized_skip :
    ∀ (now : ℤ) (name : Gpx.OwnedName)
      (attributes : List Gpx.OwnedAttribute) (rest : List Gpx.XmlEvent)
      (track : Gpx.Track) (context : Gpx.ParserContext),
      Gpx.parse_gpx_xml_tag name = none →
      Gpx.read_gpx_loop now (.StartElement name attributes :: rest) track
          context =
        Gpx.read_gpx_loop now rest track context ∧
      Gpx.read_gpx_loop now (.EndElement name :: rest) track context =
        Gpx.read_gpx_loop now rest track context := by
  intro now name attributes rest track context h
  constructor <;> simp [Gpx.read_gpx_loop, h]

theorem claim8_amended_unrecognized_skip_witness :
    Gpx.parse_gpx_xml_tag Gpx.foreign_name = none ∧
    Gpx.read_gpx_loop 0 [.StartElement Gpx.foreign_name []] Gpx.Track.new
        (Gpx.ParserContext.new 0) =
      Gpx.read_gpx_loop 0 [] Gpx.Track.new (Gpx.ParserContext.new 0) :=
  ⟨rfl, (claim8_amended_unrecognized_skip 0 Gpx.foreign_name [] []
    Gpx.Track.new (Gpx.ParserContext.new 0) rfl).1⟩

/-- C10: with the current tag a recognized `time` element whose value will
be discarded (not in metadata, no open point), `parse_xml_characters`
fails exactly when the text is not a well-formed RFC-3339 timestamp, and
on success returns the track and parser context completely unchanged. -/
theorem claim10_discarded_time_text :
    ∀ (characters : String) (track : Gpx.Track)
      (context : Gpx.ParserContext),
      context.current_tag = some .Time →
      context.in_metadata = false →
      context.in_track_point = false →
      ((Gpx.parse_xml_characters characters track context =
          .error .XmlError ↔ Gpx.parse_from_rfc3339 characters = none) ∧
       ∀ t : ℤ, Gpx.parse_from_rfc3339 characters = some t →
        Gpx.parse_xml_characters characters track context =
          .ok (track, context)) := by
  intro characters track context htag hmeta hpoint
  constructor
  · cases h : Gpx.parse_from_rfc3339 characters with
    | none => simp [Gpx.parse_xml_characters, htag, h]
    | some t => simp [Gpx.parse_xml_characters, htag, h, hmeta, hpoint]
  · intro t ht
    simp [Gpx.parse_xml_characters, htag, ht, hmeta, hpoint]

theorem claim10_discarded_time_text_witness :
    Gpx.time_context.current_tag = some .Time ∧
    Gpx.parse_xml_characters "abc" Gpx.Track.new Gpx.time_context =
      .error .XmlError ∧
    Gpx.parse_xml_characters "2020-04-22T16:01:58Z" Gpx.Track.new
      Gpx.time_context = .ok (Gpx.Track.new, Gpx.time_context) := by
  refine ⟨rfl, ?_, ?_⟩
  · exact (claim10_discarded_time_text "abc" Gpx.Track.new Gpx.time_context
      rfl rfl rfl).1.mpr rfl
  · exact (claim10_discarded_time_text "2020-04-22T16:01:58Z" Gpx.Track.new
      Gpx.time_context rfl rfl rfl).2 1587571318000 rfl

theorem calc_track_distance_segment_eq (points : List TrackPoint) :
    calc_track_distance_segment points = spec_segment_distance points := by
  induction points with
  | nil => rfl
  | cons p tail ih =>
    cases tail with
    | nil => rfl
    | cons q rest =>
      have hs : spec_segment_distance (p :: q :: rest) =
          distance_with_elevation p q + spec_segment_distance (q :: rest) := by
        simp [spec_segment_distance]
      rw [calc_track_distance_segment, hs, ih]

theorem foldl_add_real {α : Type} (f : α → ℝ) (l : List α) :
    ∀ a : ℝ, l.foldl (fun acc x => acc + f x) a = a + (l.map f).sum := by
  induction l with
  | nil => intro a; simp
  | cons x xs ih =>
    intro a
    simp only [List.foldl_cons, List.map_cons, List.sum_cons, ih, add_assoc]

/-- C5: for every track, the computed distance is the floor of the sum,
over all segments, of the elevation-adjusted consecutive-pair distances
within that segment; no pair spans two segments, and a non-positive total
yields `0` (which `Nat.floor` produces for non-positive reals). -/
theorem claim5_track_distance :
    ∀ track : Track,
      calc_track_distance track =
        ⌊(track.route.map
            (fun segment => spec_segment_distance segment.points)).sum⌋₊ := by
  intro track
  unfold calc_track_distance
  rw [foldl_add_real (fun segment =>
    calc_track_distance_segment segment.points) track.route 0]
  simp only [calc_track_distance_segment_eq, zero_add]
  split
  · rfl
  · next h => exact (Nat.floor_of_nonpos (le_of_not_lt h)).symm

theorem segment_sorted_cons {p q : TrackPoint} {rest : List TrackPoint} :
    segment_sorted (p :: q :: rest) ↔
      p.time ≤ q.time ∧ segment_sorted (q :: rest) := by
  simp [segment_sorted, pairwise_le]

theorem track_sorted_iff {track : Track} :
    track_sorted track ↔
      ∀ segment ∈ track.route, segment_sorted segment.points := by
  simp [track_sorted, segment_sorted, List.all_eq_true]

theorem calc_track_duration_segment_eq :
    ∀ points : List TrackPoint, segment_sorted points →
      calc_track_duration_segment points =
        some (spec_segment_duration points) := by
  intro points
  induction points with
  | nil => intro _; rfl
  | cons p tail ih =>
    intro h
    cases tail with
    | nil => rfl
    | cons q rest =>
      obtain ⟨hpq, h'⟩ := segment_sorted_cons.mp h
      have hd : duration_between_points p q = some (q.time - p.time).toNat := by
        simp [duration_between_points, not_lt.mpr (sub_nonneg.mpr hpq)]
      have hspec : spec_segment_duration (p :: q :: rest) =
          (q.time - p.time).toNat + spec_segment_duration (q :: rest) := by
        simp [spec_segment_duration]
      simp [calc_track_duration_segment, hd, ih h', hspec]

theorem duration_foldlM_eq :
    ∀ segments : List TrackSegment,
      (∀ s ∈ segments, segment_sorted s.points) →
      ∀ a : ℕ,
        List.foldlM (fun acc segment => do
          pure (acc + (← calc_track_duration_segment segment.points)))
          a segments =
        some (a + (segments.map
          (fun s => spec_segment_duration s.points)).sum) := by
  intro segments
  induction segments with
  | nil => intro _ a; simp
  | cons s rest ih =>
    intro h a
    have hs := calc_track_duration_segment_eq s.points (h s (by simp))
    have hrest : ∀ x ∈ rest, segment_sorted x.points :=
      fun x hx => h x (by simp [hx])
    simp only [List.foldlM_cons, hs, Option.bind_eq_bind, Option.pure_def,
      Option.some_bind, List.map_cons, List.sum_cons]
    rw [← add_assoc]
    exact ih hrest (a + spec_segment_duration s.points)

/-- C6: for every track whose segments are in non-decreasing time order,
the computed duration is the sum, over all segments, of consecutive-pair
time differences within that segment (in milliseconds); segment boundaries
contribute nothing, and 0/1-point segments contribute zero. -/
theorem claim6_track_duration :
    ∀ track : Track, track_sorted track →
      calc_track_duration track =
        some ((track.route.map
          (fun segment => spec_segment_duration segment.points)).sum) := by
  intro track h
  unfold calc_track_duration
  rw [duration_foldlM_eq track.route (track_sorted_iff.mp h) 0, zero_add]

theorem amended_hr_pairs_cons (p q : TrackPoint) (rest : List TrackPoint) :
    amended_hr_pairs (p :: q :: rest) =
      amended_hr_pair p q + amended_hr_pairs (q :: rest) := by
  simp [amended_hr_pairs]

theorem amended_hr_terminal_cons (p q : TrackPoint) (rest : List TrackPoint)
    (single : Bool) :
    amended_hr_terminal (p :: q :: rest) single =
      amended_hr_terminal (q :: rest) (single && (p.heart_rate == 0)) := by
  cases hgl : (q :: rest).getLast? with
  | none =>
    simp [amended_hr_terminal, List.getLast?_cons_cons, hgl]
  | some x =>
    simp only [amended_hr_terminal, List.getLast?_cons_cons, hgl,
      all_but_last_hr_zero]
    simp [Bool.and_eq_true, and_assoc]

theorem hr_segment_loop_spec :
    ∀ points : List TrackPoint, segment_sorted points →
      ∀ (single : Bool) (s t : ℕ),
        hr_segment_loop points single (s, t) =
          some ((s, t) + (amended_hr_pairs points +
            amended_hr_terminal points single)) := by
  intro points
  induction points with
  | nil =>
    intro _ single s t
    simp [hr_segment_loop, amended_hr_pairs, amended_hr_terminal]
  | cons p tail ih =>
    intro h single s t
    cases tail with
    | nil =>
      by_cases hp : p.heart_rate = 0
      · simp [hr_segment_loop, hp, amended_hr_pairs, amended_hr_terminal,
          all_but_last_hr_zero]
      · cases single with
        | true =>
          simp [hr_segment_loop, hp, amended_hr_pairs, amended_hr_terminal,
            all_but_last_hr_zero, Prod.mk_add_mk]
        | false =>
          simp [hr_segment_loop, hp, amended_hr_pairs, amended_hr_terminal,
            all_but_last_hr_zero]
    | cons q rest =>
      obtain ⟨hpq, h'⟩ := segment_sorted_cons.mp h
      have hd : duration_between_points p q =
          some (q.time - p.time).toNat := by
        simp [duration_between_points, not_lt.mpr (sub_nonneg.mpr hpq)]
      rw [amended_hr_pairs_cons, amended_hr_terminal_cons]
      by_cases hp : p.heart_rate = 0
      · have hpb : (p.heart_rate == 0) = true := by simp [hp]
        have hl : hr_segment_loop (p :: q :: rest) single (s, t) =
            hr_segment_loop (q :: rest) single (s, t) := by
          simp [hr_segment_loop, hp]
        rw [hl, ih h' single s t, hpb, Bool.and_true]
        simp [amended_hr_pair, hp]
      · have hpb : (p.heart_rate == 0) = false := by simp [hp]
        rw [hpb, Bool.and_false]
        by_cases hq : q.heart_rate = 0
        · by_cases hdz : ((q.time - p.time).toNat / 1000 = 0)
          · have hl : hr_segment_loop (p :: q :: rest) single (s, t) =
                hr_segment_loop (q :: rest) false
                  (s + p.heart_rate, t + 1) := by
              simp [hr_segment_loop, hp, hq, hd, hdz]
            rw [hl, ih h' false]
            have hpair : amended_hr_pair p q = (p.heart_rate, 1) := by
              simp [amended_hr_pair, hp, hq, seconds_between, hdz]
            rw [hpair]
            congr 1
            apply Prod.ext <;>
              simp [Prod.fst_add, Prod.snd_add, Prod.mk_add_mk] <;> omega
          · have hl : hr_segment_loop (p :: q :: rest) single (s, t) =
                hr_segment_loop (q :: rest) false
                  (s + p.heart_rate +
                    (p.heart_rate + q.heart_rate) *
                      ((q.time - p.time).toNat / 1000) / 2,
                   t + 1 + (q.time - p.time).toNat / 1000) := by
              simp [hr_segment_loop, hp, hq, hd, hdz]
            rw [hl, ih h' false]
            have hpair : amended_hr_pair p q =
                (p.heart_rate + (p.heart_rate + q.heart_rate) *
                    ((q.time - p.time).toNat / 1000) / 2,
                  1 + (q.time - p.time).toNat / 1000) := by
              simp [amended_hr_pair, hp, hq, seconds_between, hdz,
                Prod.mk_add_mk]
            rw [hpair]
            congr 1
            apply Prod.ext <;>
              simp [Prod.fst_add, Prod.snd_add, Prod.mk_add_mk] <;> omega
        · by_cases hdz : ((q.time - p.time).toNat / 1000 = 0)
          · have hl : hr_segment_loop (p :: q :: rest) single (s, t) =
                hr_segment_loop (q :: rest) false (s, t) := by
              simp [hr_segment_loop, hp, hq, hd, hdz]
            rw [hl, ih h' false]
            have hpair : amended_hr_pair p q = (0, 0) := by
              simp [amended_hr_pair, hp, hq, seconds_between, hdz]
            rw [hpair]
            congr 1
            apply Prod.ext <;>
              simp [Prod.fst_add, Prod.snd_add, Prod.mk_add_mk]
          · have hl : hr_segment_loop (p :: q :: rest) single (s, t) =
                hr_segment_loop (q :: rest) false
                  (s + (p.heart_rate + q.heart_rate) *
                      ((q.time - p.time).toNat / 1000) / 2,
                   t + (q.time - p.time).toNat / 1000) := by
              simp [hr_segment_loop, hp, hq, hd, hdz]
            rw [hl, ih h' false]
            have hpair : amended_hr_pair p q =
                ((p.heart_rate + q.heart_rate) *
                    ((q.time - p.time).toNat / 1000) / 2,
                  (q.time - p.time).toNat / 1000) := by
              simp [amended_hr_pair, hp, hq, seconds_between, hdz]
            rw [hpair]
            congr 1
            apply Prod.ext <;>
              simp [Prod.fst_add, Prod.snd_add, Prod.mk_add_mk] <;> omega

theorem hr_segments_spec :
    ∀ segments : List TrackSegment,
      (∀ s ∈ segments, segment_sorted s.points) →
      ∀ (s t : ℕ),
        hr_segments segments (s, t) =
          some ((s, t) + (segments.map
            (fun seg => amended_hr_segment seg.points)).sum) := by
  intro segments
  induction segments with
  | nil => intro _ s t; simp [hr_segments]
  | cons seg rest ih =>
    intro h s t
    have hs := h seg (by simp)
    have hrest : ∀ x ∈ rest, segment_sorted x.points :=
      fun x hx => h x (by simp [hx])
    rw [hr_segments, hr_segment_loop_spec seg.points hs true s t]
    simp only [Option.bind_eq_bind, Option.some_bind]
    have : (s, t) + (amended_hr_pairs seg.points +
        amended_hr_terminal seg.points true) =
        ((s + (amended_hr_pairs seg.points +
          amended_hr_terminal seg.points true).1,
          t + (amended_hr_pairs seg.points +
          amended_hr_terminal seg.points true).2)) := rfl
    rw [this, ih hrest]
    congr 1
    apply Prod.ext <;>
      simp [amended_hr_segment, Prod.fst_add, Prod.snd_add] <;> omega

/-- C4 counterexample: on the one-segment track
`(t=0, hr=100), (t=10, hr=0), (t=20, hr=120)` the code yields 54 bpm
(`sum = 600`, `weight = 11`): the `(100, 0)` pair contributes its 1-second
sample *and* a 10-second trapezoid with `hr=0`, and the terminal point 120
contributes nothing because an earlier pair was processed — while the
claim's accounting yields 110 bpm. -/
theorem claim4_counterexample :
    calc_track_average_heart_rate hr_gap_track ≠
      some (claim_average_heart_rate hr_gap_track) ∧
    calc_track_average_heart_rate hr_gap_track = some 54 ∧
    claim_average_heart_rate hr_gap_track = 110 := by
  refine ⟨by decide, by decide, by decide⟩

/-- C4 amended: for every track with time-sorted segments, the computed
average heart rate equals `amended_average_heart_rate`: per segment, the
`amended_hr_pair` contributions (a successor with heart rate 0 yields the
1-second sample *plus*, for a non-zero whole-second gap, the trapezoid
with `hr_{i+1} = 0`), plus a terminal 1-second sample only when every
earlier point of the segment has heart rate 0; the result is the floored
quotient of the totals, reduced mod 256, and 0 on zero weight. -/
theorem claim4_amended_heart_rate :
    ∀ track : Track, track_sorted track →
      calc_track_average_heart_rate track =
        some (amended_average_heart_rate track) := by
  intro track h
  unfold calc_track_average_heart_rate amended_average_heart_rate
  rw [hr_segments_spec track.route (track_sorted_iff.mp h) 0 0]
  simp [zero_add]

theorem claim4_amended_heart_rate_witness :
    track_sorted hr_test_track ∧
    calc_track_average_heart_rate hr_test_track = some 105 :=
  ⟨by decide,
   (claim4_amended_heart_rate hr_test_track (by decide)).trans (by decide)⟩

theorem parse_trkpt_attributes_error :
    ∀ (attributes : List Gpx.OwnedAttribute) (point : TrackPoint)
      (lf lo : Bool),
      (∃ e, Gpx.parse_trkpt_attributes attributes point lf lo = .error e) ↔
        ((∃ a ∈ attributes, a.name.local_name = "lat" ∧
            Gpx.parse_f64 a.value = none) ∨
         (∃ a ∈ attributes, a.name.local_name = "lon" ∧
            Gpx.parse_f64 a.value = none)) := by
  intro attributes
  induction attributes with
  | nil => intro point lf lo; simp [Gpx.parse_trkpt_attributes]
  | cons a rest ih =>
    intro point lf lo
    by_cases hlat : a.name.local_name = "lat"
    · have hb : (a.name.local_name == "lat") = true := by simp [hlat]
      cases hv : Gpx.parse_f64 a.value with
      | none =>
          simp only [Gpx.parse_trkpt_attributes, hb, hv, hlat]
          simp [hlat, hv]
          exact ⟨Gpx.ParseError.XmlError, trivial⟩
      | some v => simp [Gpx.parse_trkpt_attributes, hb, hv, hlat, ih]
    · have hb : (a.name.local_name == "lat") = false := by simp [hlat]
      by_cases hlon : a.name.local_name = "lon"
      · have hb2 : (a.name.local_name == "lon") = true := by simp [hlon]
        cases hv : Gpx.parse_f64 a.value with
        | none =>
            simp [Gpx.parse_trkpt_attributes, hb, hb2, hv, hlat, hlon]
            exact ⟨Gpx.ParseError.XmlError, trivial⟩
        | some v =>
            simp [Gpx.parse_trkpt_attributes, hb, hb2, hv, hlat, hlon, ih]
      · have hb2 : (a.name.local_name == "lon") = false := by simp [hlon]
        simp [Gpx.parse_trkpt_attributes, hb, hb2, hlat, hlon, ih]

theorem last_attr_value_cons_key (a : Gpx.OwnedAttribute)
    (rest : List Gpx.OwnedAttribute) (key : String)
    (h : (a.name.local_name == key) = true) :
    Gpx.last_attr_value (a :: rest) key =
      (match rest.filter (fun x => x.name.local_name == key) with
       | [] => Gpx.parse_f64 a.value
       | _ :: _ => Gpx.last_attr_value rest key) := by
  cases hf : rest.filter (fun x => x.name.local_name == key) with
  | nil => simp [Gpx.last_attr_value, List.filter_cons, h, hf]
  | cons b l =>
      simp [Gpx.last_attr_value, List.filter_cons, h, hf,
        List.getLast?_cons_cons]

theorem last_attr_value_cons_not_key (a : Gpx.OwnedAttribute)
    (rest : List Gpx.OwnedAttribute) (key : String)
    (h : (a.name.local_name == key) = false) :
    Gpx.last_attr_value (a :: rest) key = Gpx.last_attr_value rest key := by
  simp [Gpx.last_attr_value, List.filter_cons, h]

theorem last_attr_value_none (attributes : List Gpx.OwnedAttribute)
    (key : String) :
    Gpx.last_attr_value attributes key = none →
      (¬∃ a ∈ attributes, a.name.local_name = key) ∨
      (∃ a ∈ attributes, a.name.local_name = key ∧
        Gpx.parse_f64 a.value = none) := by
  unfold Gpx.last_attr_value
  cases hf : attributes.filter (fun x => x.name.local_name == key) with
  | nil =>
    intro _
    left
    rintro ⟨a, ha, hk⟩
    have hmem : a ∈ attributes.filter (fun x => x.name.local_name == key) :=
      List.mem_filter.mpr ⟨ha, by simp [hk]⟩
    rw [hf] at hmem
    exact absurd hmem (List.not_mem_nil a)
  | cons b l =>
    intro h
    right
    cases hx : (b :: l).getLast? with
    | none =>
      rw [List.getLast?_eq_getLast_of_ne_nil (List.cons_ne_nil b l)] at hx
      exact absurd hx (by simp)
    | some x =>
      rw [hx] at h
      simp only [] at h
      obtain ⟨hne, hxeq⟩ := List.mem_getLast?_eq_getLast (l := b :: l)
        (x := x) hx
      have hmem : x ∈ b :: l := hxeq ▸ List.getLast_mem hne
      rw [← hf] at hmem
      have hm := List.mem_filter.mp hmem
      exact ⟨x, hm.1, by simpa using hm.2, by simpa using h⟩

theorem parse_trkpt_attributes_ok :
    ∀ (attributes : List Gpx.OwnedAttribute) (point : TrackPoint)
      (lf lo : Bool) (point' : TrackPoint) (lf' lo' : Bool),
      Gpx.parse_trkpt_attributes attributes point lf lo =
        .ok (point', lf', lo') →
      lf' = (lf || attributes.any (fun a => a.name.local_name == "lat")) ∧
      lo' = (lo || attributes.any (fun a => a.name.local_name == "lon")) ∧
      point'.elevation = point.elevation ∧
      point'.time = point.time ∧
      point'.heart_rate = point.heart_rate ∧
      point'.cadence = point.cadence ∧
      (Gpx.last_attr_value attributes "lat" = none →
        point'.latitude = point.latitude) ∧
      (∀ v, Gpx.last_attr_value attributes "lat" = some v →
        point'.latitude = v) ∧
      (Gpx.last_attr_value attributes "lon" = none →
        point'.longitude = point.longitude) ∧
      (∀ v, Gpx.last_attr_value attributes "lon" = some v →
        point'.longitude = v) := by
  intro attributes
  induction attributes with
  | nil =>
    intro point lf lo point' lf' lo' h
    simp only [Gpx.parse_trkpt_attributes, Except.ok.injEq, Prod.mk.injEq] at h
    obtain ⟨h1, h2, h3⟩ := h
    subst h1; subst h2; subst h3
    simp [Gpx.last_attr_value]
  | cons a rest ih =>
    intro point lf lo point' lf' lo' h
    by_cases hlat : a.name.local_name = "lat"
    · have hb : (a.name.local_name == "lat") = true := by simp [hlat]
      have hb2 : (a.name.local_name == "lon") = false := by simp [hlat]
      cases hv : Gpx.parse_f64 a.value with
      | none =>
        simp only [Gpx.parse_trkpt_attributes, hb, if_true, hv] at h
        simp at h
      | some v =>
        simp only [Gpx.parse_trkpt_attributes, hb, if_true, hv] at h
        obtain ⟨hlf, hlo, hele, htime, hhr, hcad, hlatn, hlats, hlonn,
          hlons⟩ := ih _ _ _ _ _ _ h
        refine ⟨?_, ?_, ?_, ?_, ?_, ?_, ?_, ?_, ?_, ?_⟩
        · simp [hlf, List.any_cons, hb]
        · simp [hlo, List.any_cons, hb2]
        · simpa using hele
        · simpa using htime
        · simpa using hhr
        · simpa using hcad
        · rw [last_attr_value_cons_key a rest "lat" hb]
          cases hf : rest.filter (fun x => x.name.local_name == "lat") with
          | nil => intro hn; rw [hv] at hn; exact absurd hn (by simp)
          | cons b l =>
            intro hn
            rcases last_attr_value_none rest "lat" hn with hno | hbad
            · exfalso
              apply hno
              have hmem : b ∈ rest.filter
                  (fun x => x.name.local_name == "lat") := by
                rw [hf]; exact List.mem_cons_self b l
              have hm := List.mem_filter.mp hmem
              exact ⟨b, hm.1, by simpa using hm.2⟩
            · exfalso
              obtain ⟨e, he⟩ := (parse_trkpt_attributes_error rest
                { point with latitude := v } true lo).mpr (Or.inl hbad)
              exact absurd (he.symm.trans h) (by simp)
        · rw [last_attr_value_cons_key a rest "lat" hb]
          cases hf : rest.filter (fun x => x.name.local_name == "lat") with
          | nil =>
            intro v' hv'
            rw [hv] at hv'
            have hveq : v = v' := by injection hv'
            have hrn : Gpx.last_attr_value rest "lat" = none := by
              simp [Gpx.last_attr_value, hf]
            have := hlatn hrn
            simp at this
            rw [this, hveq]
          | cons b l => exact hlats
        · rw [last_attr_value_cons_not_key a rest "lon" hb2]
          intro hn
          have := hlonn hn
          simpa using this
        · rw [last_attr_value_cons_not_key a rest "lon" hb2]
          exact hlons
    · have hb : (a.name.local_name == "lat") = false := by simp [hlat]
      by_cases hlon : a.name.local_name = "lon"
      · have hb2 : (a.name.local_name == "lon") = true := by simp [hlon]
        cases hv : Gpx.parse_f64 a.value with
        | none =>
          simp only [Gpx.parse_trkpt_attributes, hb, hb2, hv] at h
          simp at h
        | some v =>
          simp only [Gpx.parse_trkpt_attributes, hb, hb2, hv] at h
          obtain ⟨hlf, hlo, hele, htime, hhr, hcad, hlatn, hlats, hlonn,
            hlons⟩ := ih _ _ _ _ _ _ h
          refine ⟨?_, ?_, ?_, ?_, ?_, ?_, ?_, ?_, ?_, ?_⟩
          · simp [hlf, List.any_cons, hb]
          · simp [hlo, List.any_cons, hb2]
          · simpa using hele
          · simpa using htime
          · simpa using hhr
          · simpa using hcad
          · rw [last_attr_value_cons_not_key a rest "lat" hb]
            intro hn
            have := hlatn hn
            simpa using this
          · rw [last_attr_value_cons_not_key a rest "lat" hb]
            exact hlats
          · rw [last_attr_value_cons_key a rest "lon" hb2]
            cases hf : rest.filter (fun x => x.name.local_name == "lon") with
            | nil => intro hn; rw [hv] at hn; exact absurd hn (by simp)
            | cons b l =>
              intro hn
              rcases last_attr_value_none rest "lon" hn with hno | hbad
              · exfalso
                apply hno
                have hmem : b ∈ rest.filter
                    (fun x => x.name.local_name == "lon") := by
                  rw [hf]; exact List.mem_cons_self b l
                have hm := List.mem_filter.mp hmem
                exact ⟨b, hm.1, by simpa using hm.2⟩
              · exfalso
                obtain ⟨e, he⟩ := (parse_trkpt_attributes_error rest
                  { point with longitude := v } lf true).mpr (Or.inr hbad)
                exact absurd (he.symm.trans h) (by simp)
          · rw [last_attr_value_cons_key a rest "lon" hb2]
            cases hf : rest.filter (fun x => x.name.local_name == "lon") with
            | nil =>
              intro v' hv'
              rw [hv] at hv'
              have hveq : v = v' := by injection hv'
              have hrn : Gpx.last_attr_value rest "lon" = none := by
                simp [Gpx.last_attr_value, hf]
              have := hlonn hrn
              simp at this
              rw [this, hveq]
            | cons b l => exact hlons
      · have hb2 : (a.name.local_name == "lon") = false := by simp [hlon]
        simp only [Gpx.parse_trkpt_attributes, hb, hb2] at h
        obtain ⟨hlf, hlo, hele, htime, hhr, hcad, hlatn, hlats, hlonn,
          hlons⟩ := ih _ _ _ _ _ _ h
        refine ⟨by simp [hlf, List.any_cons, hb],
          by simp [hlo, List.any_cons, hb2], hele, htime, hhr, hcad, ?_, ?_,
          ?_, ?_⟩
        · rw [last_attr_value_cons_not_key a rest "lat" hb]; exact hlatn
        · rw [last_attr_value_cons_not_key a rest "lat" hb]; exact hlats
        · rw [last_attr_value_cons_not_key a rest "lon" hb2]; exact hlonn
        · rw [last_attr_value_cons_not_key a rest "lon" hb2]; exact hlons

theorem claim6_track_duration_witness :
    track_sorted ten_point_track ∧
    calc_track_duration ten_point_track = some 27000 ∧
    calc_track_duration one_point_track = some 0 ∧
    calc_track_duration two_same_point_track = some 0 :=
  ⟨by decide,
   (claim6_track_duration ten_point_track (by decide)).trans (by decide),
   by decide, by decide⟩

/-- C7: opening a `trkpt` element fails exactly when the parser is not
inside `gpx`, `trk` and `trkseg` simultaneously, or fewer than 2
attributes are present, or the `lat` or `lon` attribute is missing or
fails to parse as a decimal number; on success the in-point flag is set
and the in-progress point is a fresh point carrying the parsed latitude
and longitude (of the last matching attributes). -/
theorem claim7_trkpt_open :
    ∀ (now : ℤ) (attributes : List Gpx.OwnedAttribute)
      (context : Gpx.ParserContext),
      ((∃ e, Gpx.parse_start_xml_element now .TrackPoint attributes context =
          .error e) ↔
        (¬(context.in_gpx = true ∧ context.in_track = true ∧
            context.in_track_segment = true) ∨
         attributes.length < 2 ∨
         (¬∃ a ∈ attributes, a.name.local_name = "lat") ∨
         (∃ a ∈ attributes, a.name.local_name = "lat" ∧
           Gpx.parse_f64 a.value = none) ∨
         (¬∃ a ∈ attributes, a.name.local_name = "lon") ∨
         (∃ a ∈ attributes, a.name.local_name = "lon" ∧
           Gpx.parse_f64 a.value = none))) ∧
      (∀ context', Gpx.parse_start_xml_element now .TrackPoint attributes
          context = .ok context' →
        context'.in_track_point = true ∧
        context'.current_tag = some .TrackPoint ∧
        (∃ la lo, Gpx.last_attr_value attributes "lat" = some la ∧
          Gpx.last_attr_value attributes "lon" = some lo ∧
          context'.current_track_point =
            { latitude := la, longitude := lo, elevation := 0, time := now,
              heart_rate := 0, cadence := 0 })) := by
  intro now attributes context
  by_cases hctx : context.in_gpx = true ∧ context.in_track = true ∧
      context.in_track_segment = true
  case neg =>
    have hparse : Gpx.parse_start_xml_element now .TrackPoint attributes
        context = .error .XmlError := by
      unfold Gpx.parse_start_xml_element
      cases hg : context.in_gpx <;> cases ht : context.in_track <;>
        cases hs : context.in_track_segment <;> simp_all
    refine ⟨⟨fun _ => Or.inl hctx, fun _ => ⟨.XmlError, hparse⟩⟩,
      fun context' heq => ?_⟩
    rw [hparse] at heq
    exact absurd heq (by simp)
  case pos =>
    obtain ⟨hg, ht, hs⟩ := hctx
    by_cases hlen : attributes.length < 2
    · have hparse : Gpx.parse_start_xml_element now .TrackPoint attributes
          context = .error .XmlError := by
        unfold Gpx.parse_start_xml_element
        simp [hg, ht, hs, hlen]
      refine ⟨⟨fun _ => Or.inr (Or.inl hlen),
        fun _ => ⟨.XmlError, hparse⟩⟩, fun context' heq => ?_⟩
      rw [hparse] at heq
      exact absurd heq (by simp)
    · cases hpa : Gpx.parse_trkpt_attributes attributes (TrackPoint.new now)
          false false with
      | error e =>
        have hparse : Gpx.parse_start_xml_element now .TrackPoint attributes
            context = .error e := by
          unfold Gpx.parse_start_xml_element
          simp [hg, ht, hs, hlen, hpa]
        have hbad := (parse_trkpt_attributes_error attributes
          (TrackPoint.new now) false false).mp ⟨e, hpa⟩
        refine ⟨⟨fun _ => ?_, fun _ => ⟨e, hparse⟩⟩,
          fun context' heq => ?_⟩
        · rcases hbad with hb | hb
          · exact Or.inr (Or.inr (Or.inr (Or.inl hb)))
          · exact Or.inr (Or.inr (Or.inr (Or.inr (Or.inr hb))))
        · rw [hparse] at heq
          exact absurd heq (by simp)
      | ok triple =>
        obtain ⟨pt, lf', lo'⟩ := triple
        obtain ⟨hlf, hlo, hele, htime, hhr, hcad, hlatn, hlats, hlonn,
          hlons⟩ := parse_trkpt_attributes_ok attributes (TrackPoint.new now)
            false false pt lf' lo' hpa
        have hnoerr := (parse_trkpt_attributes_error attributes
          (TrackPoint.new now) false false).not.mp (by
            rw [hpa]; rintro ⟨e, he⟩; exact absurd he (by simp))
        cases hany1 : attributes.any
            (fun a => a.name.local_name == "lat") with
        | false =>
          have hparse : Gpx.parse_start_xml_element now .TrackPoint
              attributes context = .error .XmlError := by
            unfold Gpx.parse_start_xml_element
            simp [hg, ht, hs, hlen, hpa, hlf, hany1]
          refine ⟨⟨fun _ => Or.inr (Or.inr (Or.inl ?_)),
            fun _ => ⟨.XmlError, hparse⟩⟩, fun context' heq => ?_⟩
          · simp only [List.any_eq_false] at hany1
            rintro ⟨a, ha, hk⟩
            exact absurd (by simp [hk]) (hany1 a ha)
          · rw [hparse] at heq
            exact absurd heq (by simp)
        | true =>
          cases hany2 : attributes.any
              (fun a => a.name.local_name == "lon") with
          | false =>
            have hparse : Gpx.parse_start_xml_element now .TrackPoint
                attributes context = .error .XmlError := by
              unfold Gpx.parse_start_xml_element
              simp [hg, ht, hs, hlen, hpa, hlf, hlo, hany1, hany2]
            refine ⟨⟨fun _ => Or.inr (Or.inr (Or.inr (Or.inr (Or.inl ?_)))),
              fun _ => ⟨.XmlError, hparse⟩⟩, fun context' heq => ?_⟩
            · simp only [List.any_eq_false] at hany2
              rintro ⟨a, ha, hk⟩
              exact absurd (by simp [hk]) (hany2 a ha)
            · rw [hparse] at heq
              exact absurd heq (by simp)
          | true =>
            have hlat_some : Gpx.last_attr_value attributes "lat" =
                some pt.latitude := by
              cases hlastv : Gpx.last_attr_value attributes "lat" with
              | none =>
                rcases last_attr_value_none attributes "lat" hlastv with
                  hno | hbad
                · exfalso
                  apply hno
                  obtain ⟨x, hx, hpx⟩ := List.any_eq_true.mp hany1
                  exact ⟨x, hx, by simpa using hpx⟩
                · exact absurd (Or.inl hbad) hnoerr
              | some w => rw [hlats w hlastv]
            have hlon_some : Gpx.last_attr_value attributes "lon" =
                some pt.longitude := by
              cases hlastv : Gpx.last_attr_value attributes "lon" with
              | none =>
                rcases last_attr_value_none attributes "lon" hlastv with
                  hno | hbad
                · exfalso
                  apply hno
                  obtain ⟨x, hx, hpx⟩ := List.any_eq_true.mp hany2
                  exact ⟨x, hx, by simpa using hpx⟩
                · exact absurd (Or.inr hbad) hnoerr
              | some w => rw [hlons w hlastv]
            have hpt : pt =
                { latitude := pt.latitude
                  longitude := pt.longitude
                  elevation := 0
                  time := now
                  heart_rate := 0
                  cadence := 0 } := by
              cases pt
              simp_all [TrackPoint.new]
            constructor
            · constructor
              · rintro ⟨e, he⟩
                rw [show Gpx.parse_start_xml_element now .TrackPoint
                    attributes context = Except.ok
                      { context with
                        current_tag := some .TrackPoint
                        in_track_point := true
                        current_track_point := pt } from ?_] at he
                · exact absurd he (by simp)
                · unfold Gpx.parse_start_xml_element
                  simp [hg, ht, hs, hlen, hpa, hlf, hlo, hany1, hany2]
              · rintro (h1 | h2 | h3 | h4 | h5 | h6)
                · exact absurd ⟨hg, ht, hs⟩ h1
                · exact absurd h2 hlen
                · exfalso
                  apply h3
                  obtain ⟨x, hx, hpx⟩ := List.any_eq_true.mp hany1
                  exact ⟨x, hx, by simpa using hpx⟩
                · exact absurd (Or.inl h4) hnoerr
                · exfalso
                  apply h5
                  obtain ⟨x, hx, hpx⟩ := List.any_eq_true.mp hany2
                  exact ⟨x, hx, by simpa using hpx⟩
                · exact absurd (Or.inr h6) hnoerr
            · intro context' heq
              rw [show Gpx.parse_start_xml_element now .TrackPoint
                  attributes context = Except.ok
                    { context with
                      current_tag := some .TrackPoint
                      in_track_point := true
                      current_track_point := pt } from ?_] at heq
              · have heq' := (Except.ok.injEq _ _).mp heq
                subst heq'
                exact ⟨rfl, rfl, pt.latitude, pt.longitude, hlat_some,
                  hlon_some, hpt ▸ rfl⟩
              · unfold Gpx.parse_start_xml_element
                simp [hg, ht, hs, hlen, hpa, hlf, hlo, hany1, hany2]

theorem claim7_trkpt_open_witness :
    (∃ e, Gpx.parse_start_xml_element 0 .TrackPoint Gpx.trkpt_lat_only
        Gpx.open_context = .error e) ∧
    (∃ context', Gpx.parse_start_xml_element 0 .TrackPoint Gpx.trkpt_ok_attrs
        Gpx.open_context = .ok context' ∧
      context'.in_track_point = true ∧
      context'.current_track_point.latitude = 21 / 2 ∧
      context'.current_track_point.longitude = 81 / 4) := by
  constructor
  · exact (claim7_trkpt_open 0 Gpx.trkpt_lat_only Gpx.open_context).1.mpr
      (Or.inr (Or.inl (by decide)))
  · refine ⟨?_, ?_, ?_, ?_, ?_⟩
    · exact { Gpx.open_context with
        current_tag := some .TrackPoint
        in_track_point := true
        current_track_point :=
          { latitude := 21 / 2
            longitude := 81 / 4
            elevation := 0
            time := 0
            heart_rate := 0
            cadence := 0 } }
    · with_unfolding_all rfl
    · exact ((claim7_trkpt_open 0 Gpx.trkpt_ok_attrs Gpx.open_context).2 _
        (by with_unfolding_all rfl)).1
    · with_unfolding_all rfl
    · with_unfolding_all rfl

end Runstats
